import Mathlib

/-!
Shallow embedding of `src/utils.py` (class `PromptGenerator`), a prompt
builder that applies per-model templates to a conversation. Strings are
modelled as `List Char`; Python exceptions are modelled explicitly
(`PyErr`), and methods that mutate `self` return the pair of the raised
error (if any) together with the object state at the point of the raise.
-/

deriving instance DecidableEq for Except

namespace PromptGen

/-- Python whitespace characters, as used by `str.strip()` (ASCII subset;
the templates and inputs in this development are ASCII). -/
def isPySpace (c : Char) : Bool :=
  c = ' ' || c = '\t' || c = '\n' || c = '\r' || c = '\x0b' || c = '\x0c'

/-- Python `str.strip()`: remove leading and trailing whitespace. -/
def pyStrip (s : List Char) : List Char :=
  ((s.dropWhile isPySpace).reverse.dropWhile isPySpace).reverse

/-- Python `str.lower()` (ASCII). -/
def pyLower (s : List Char) : List Char :=
  s.map Char.toLower

/-- If `p` is a prefix of `s`, return the remainder of `s`; else `none`. -/
def dropPre : List Char → List Char → Option (List Char)
  | [], s => some s
  | _ :: _, [] => none
  | p :: ps, c :: cs => if p = c then dropPre ps cs else none

/-- Fuel-driven core of Python `str.replace(old, new)`: replaces
non-overlapping occurrences left to right.  The fuel is only a structural
termination device; with `fuel ≥ s.length` it never runs out. -/
def pyReplaceFuel (old new : List Char) : Nat → List Char → List Char
  | _, [] => []
  | 0, s => s
  | fuel + 1, c :: rest =>
    match dropPre old (c :: rest) with
    | some rem =>
      if old.isEmpty then c :: pyReplaceFuel old new fuel rest
      else new ++ pyReplaceFuel old new fuel rem
    | none => c :: pyReplaceFuel old new fuel rest

/-- Python `s.replace(old, new)` (for non-empty `old`; an empty `old`
pattern is never used by the source). -/
def pyReplace (s old new : List Char) : List Char :=
  pyReplaceFuel old new s.length s

/-- Failure of Python `str.format`: a placeholder name with no binding
(Python `KeyError`) or malformed braces (Python `ValueError`). -/
inductive FmtErr
  | missingKey (k : List Char)
  | malformed
  deriving DecidableEq

/-- First-match lookup in an association list of keyword arguments. -/
def lookupAssoc : List (List Char × List Char) → List Char → Option (List Char)
  | [], _ => none
  | (k, v) :: rest, t => if k = t then some v else lookupAssoc rest t

/-- Fuel-driven scanner for Python `str.format` restricted to simple named
fields `\x7bname\x7d` (the only form the source's templates use), with
`\x7b\x7b`/`\x7d\x7d` escapes.  `none` mode copies characters, `some acc`
mode accumulates a field name (reversed).  Fuel decreases once per step
while at least one character is consumed, so `fuel > s.length` suffices. -/
def fmtAux (args : List (List Char × List Char)) :
    Nat → Option (List Char) → List Char → Except FmtErr (List Char)
  | 0, _, _ => .error FmtErr.malformed
  | _ + 1, none, [] => .ok []
  | fuel + 1, none, c :: rest =>
    if c = '\x7b' then
      match rest with
      | [] => .error FmtErr.malformed
      | c2 :: rest2 =>
        if c2 = '\x7b' then (fun t => '\x7b' :: t) <$> fmtAux args fuel none rest2
        else fmtAux args fuel (some []) (c2 :: rest2)
    else if c = '\x7d' then
      match rest with
      | [] => .error FmtErr.malformed
      | c2 :: rest2 =>
        if c2 = '\x7d' then (fun t => '\x7d' :: t) <$> fmtAux args fuel none rest2
        else .error FmtErr.malformed
    else (fun t => c :: t) <$> fmtAux args fuel none rest
  | _ + 1, some _, [] => .error FmtErr.malformed
  | fuel + 1, some acc, c :: rest =>
    if c = '\x7d' then
      match lookupAssoc args acc.reverse with
      | some v => (fun t => v ++ t) <$> fmtAux args fuel none rest
      | none => .error (FmtErr.missingKey acc.reverse)
    else if c = '\x7b' then .error FmtErr.malformed
    else fmtAux args fuel (some (c :: acc)) rest

/-- Python `tmpl.format(**args)` for simple named fields.  Extra keyword
arguments are ignored, exactly as in Python. -/
def pyFormat (tmpl : List Char) (args : List (List Char × List Char)) :
    Except FmtErr (List Char) :=
  fmtAux args (tmpl.length + 1) none tmpl

/-- One element of `self.conversation`: a formatted string for text
templates, or a role/content record for the "openai" template family. -/
inductive Turn
  | str (s : List Char)
  | record (role content : List Char)
  deriving DecidableEq

/-- One entry of the template store `self.model_templates`: the four
sub-templates of a model format (`prompt_templates.json` is external I/O;
its shape is fixed by `load_template`, utils.py lines 45-48). -/
structure Tmpl where
  response : List Char
  user : List Char
  system : List Char
  input : List Char
  deriving DecidableEq

/-- Python exceptions raised by the source: `ValueError` (explicit
raises), `AttributeError` (reading an instance attribute that was never
assigned), format failures from `str.format`, and `TypeError`
(`"".join` over non-string elements). -/
inductive PyErr
  | valueError (msg : List Char)
  | attributeError (name : List Char)
  | formatError (e : FmtErr)
  | typeError
  deriving DecidableEq

/-- Result of `generate_prompt` (utils.py lines 196-206): the raw
conversation list for "openai", a joined and stripped string otherwise. -/
inductive GenOut
  | convList (l : List Turn)
  | text (s : List Char)
  deriving DecidableEq

/-- The state of a `PromptGenerator` object.  Attributes that `__init__`
does not assign (the four `*_prompt_helper`s, `template_name`,
`is_llama_2`) are `Option`s; reading them while `none` is Python's
`AttributeError`. -/
structure PG where
  model_name : List Char
  model_templates : List (List Char × Tmpl)
  conversation : List Turn
  system_text : List Char
  model_prompt_helper : Option (List Char)
  user_prompt_helper : Option (List Char)
  system_prompt_helper : Option (List Char)
  input_prompt_helper : Option (List Char)
  template_name : Option (List Char)
  is_llama_2 : Option Bool
  deriving DecidableEq

-- String constants of the source (literals are bound here once and used
-- by name below).
def kUser : List Char := "user".data
def kSystem : List Char := "system".data
def kModel : List Char := "model".data
def kPrompt : List Char := "prompt".data
def kInput : List Char := "input".data
def kResponse : List Char := "response".data
def kOpenai : List Char := "openai".data
def kAlpaca : List Char := "alpaca".data
def kLlama2 : List Char := "llama-2-chat".data
def sInst : List Char := " [INST]".data
def msgTemplateNotFound : List Char := "Template not found.".data
def msgInputRole : List Char := "Input parameter can only be used with user role".data
def aTemplateName : List Char := "template_name".data
def aIsLlama2 : List Char := "is_llama_2".data
def aSysHelper : List Char := "system_prompt_helper".data
def aUserHelper : List Char := "user_prompt_helper".data
def aInputHelper : List Char := "input_prompt_helper".data
def aModelHelper : List Char := "model_prompt_helper".data

/-- `__init__` (utils.py lines 5-19).  Loading `prompt_templates.json`
from disk is external I/O; the resulting mapping is passed in as `store`
(the spec's external `TemplateStore` collaborator). -/
def init (model_name : List Char) (store : List (List Char × Tmpl)) : PG :=
  { model_name := model_name
    model_templates := store
    conversation := []
    system_text := []
    model_prompt_helper := none
    user_prompt_helper := none
    system_prompt_helper := none
    input_prompt_helper := none
    template_name := none
    is_llama_2 := none }

/-- Dict lookup `self.model_templates[template]` guarded by
`template in self.model_templates` (utils.py line 44). -/
def lookupTmpl : List (List Char × Tmpl) → List Char → Option Tmpl
  | [], _ => none
  | (k, v) :: rest, t => if k = t then some v else lookupTmpl rest t

/-- `load_template` (utils.py lines 33-55): lower-case the name, look it
up, bind the four sub-templates, `template_name` and `is_llama_2`; raise
`ValueError("Template not found.")` (with no state change — the raise
precedes every assignment) when absent. -/
def load_template (pg : PG) (template : List Char) : Option PyErr × PG :=
  let t := pyLower template
  match lookupTmpl pg.model_templates t with
  | none => (some (PyErr.valueError msgTemplateNotFound), pg)
  | some tpl =>
    (none,
      { pg with
        model_prompt_helper := some tpl.response
        user_prompt_helper := some tpl.user
        system_prompt_helper := some tpl.system
        input_prompt_helper := some tpl.input
        template_name := some t
        is_llama_2 := some (if t = kLlama2 then true else false) })

/-- `custom_template` (utils.py lines 57-80): overwrites only the four
sub-template attributes; `template_name` and `is_llama_2` are untouched. -/
def custom_template (pg : PG)
    (system_template response_template user_template input_template : List Char) : PG :=
  { pg with
    model_prompt_helper := some response_template
    user_prompt_helper := some user_template
    system_prompt_helper := some system_template
    input_prompt_helper := some input_template }

/-- `set_system_prompt` (utils.py lines 82-98): empties the conversation
and records `system_text` first (so these effects persist even if the
subsequent attribute read or format raises), then appends either a
role/content record ("openai") or the formatted system template. -/
def set_system_prompt (pg : PG) (system_text : List Char) : Option PyErr × PG :=
  let pg1 := { pg with conversation := ([] : List Turn), system_text := system_text }
  match pg1.template_name with
  | none => (some (PyErr.attributeError aTemplateName), pg1)
  | some tn =>
    match pg1.system_prompt_helper with
    | none => (some (PyErr.attributeError aSysHelper), pg1)
    | some sph =>
      if tn = kOpenai then
        (none, { pg1 with conversation := [Turn.record sph pg1.system_text] })
      else
        match pyFormat sph [(kSystem, pyStrip pg1.system_text)] with
        | .error e => (some (PyErr.formatError e), pg1)
        | .ok s => (none, { pg1 with conversation := [Turn.str s] })

/-- Append one rendered turn. -/
def appendTurn (pg : PG) (t : Turn) : PG :=
  { pg with conversation := pg.conversation ++ [t] }

/-- The llama-2 first-user-turn branch of `add_to_conversation`
(utils.py lines 120-121): format with the user sub-template, then strip
every occurrence of the literal `" [INST]"` from the result. -/
def addUserLlama (pg : PG) (combined : List Char) : Option PyErr × PG :=
  match pg.user_prompt_helper with
  | none => (some (PyErr.attributeError aUserHelper), pg)
  | some uph =>
    match pyFormat uph [(kPrompt, combined)] with
    | .error e => (some (PyErr.formatError e), pg)
    | .ok s => (none, appendTurn pg (Turn.str (pyReplace s sInst [])))

/-- The remaining user-role branches of `add_to_conversation` (utils.py
lines 122-132): "openai" record, the alpaca input sub-template (which the
source formats with `prompt=` only — no `input=` keyword, line 130), or
the plain user sub-template with `prompt=` and `input=` (line 132). -/
def addUserRest (pg : PG) (combined input : List Char) : Option PyErr × PG :=
  match pg.template_name with
  | none => (some (PyErr.attributeError aTemplateName), pg)
  | some tn =>
    if tn = kOpenai then
      match pg.user_prompt_helper with
      | none => (some (PyErr.attributeError aUserHelper), pg)
      | some uph => (none, appendTurn pg (Turn.record uph combined))
    else if input ≠ [] ∧ tn = kAlpaca then
      match pg.input_prompt_helper with
      | none => (some (PyErr.attributeError aInputHelper), pg)
      | some iph =>
        match pyFormat iph [(kPrompt, combined)] with
        | .error e => (some (PyErr.formatError e), pg)
        | .ok s => (none, appendTurn pg (Turn.str s))
    else
      match pg.user_prompt_helper with
      | none => (some (PyErr.attributeError aUserHelper), pg)
      | some uph =>
        match pyFormat uph [(kPrompt, combined), (kInput, pyStrip input)] with
        | .error e => (some (PyErr.formatError e), pg)
        | .ok s => (none, appendTurn pg (Turn.str s))

/-- The user-role dispatch of `add_to_conversation` (utils.py line 120):
`len(self.conversation) == 1 and self.is_llama_2` with Python's
short-circuit (`is_llama_2` is only read when the length is 1). -/
def addUser (pg : PG) (combined input : List Char) : Option PyErr × PG :=
  if pg.conversation.length = 1 then
    match pg.is_llama_2 with
    | none => (some (PyErr.attributeError aIsLlama2), pg)
    | some b => if b then addUserLlama pg combined else addUserRest pg combined input
  else addUserRest pg combined input

/-- The model-role branch of `add_to_conversation` (utils.py lines
134-143). -/
def addModel (pg : PG) (combined : List Char) : Option PyErr × PG :=
  match pg.template_name with
  | none => (some (PyErr.attributeError aTemplateName), pg)
  | some tn =>
    match pg.model_prompt_helper with
    | none => (some (PyErr.attributeError aModelHelper), pg)
    | some mph =>
      if tn = kOpenai then (none, appendTurn pg (Turn.record mph combined))
      else
        match pyFormat mph [(kResponse, combined)] with
        | .error e => (some (PyErr.formatError e), pg)
        | .ok s => (none, appendTurn pg (Turn.str s))

/-- `add_to_conversation` (utils.py lines 100-143).  Note the first guard
compares `role` to `'user'` case-SENSITIVELY (line 113) while the role
dispatch below it uses `role.lower()`, and that a role matching none of
the three branches falls through silently (there is no `else` raise). -/
def add_to_conversation (pg : PG) (role text preprompt input : List Char) :
    Option PyErr × PG :=
  if role ≠ kUser ∧ input ≠ [] then (some (PyErr.valueError msgInputRole), pg)
  else if pyLower role = kSystem then
    set_system_prompt pg (pyStrip preprompt ++ pyStrip text)
  else if pyLower role = kUser then
    addUser pg (pyStrip preprompt ++ pyStrip text) input
  else if pyLower role = kModel then
    addModel pg (pyStrip preprompt ++ pyStrip text)
  else (none, pg)

/-- `clear_conversation` (utils.py lines 145-149). -/
def clear_conversation (pg : PG) : PG :=
  { pg with conversation := pg.conversation.take 1 }

/-- Python slice `l[s:]` with a possibly negative integer start. -/
def pySliceFrom (s : Int) (l : List Turn) : List Turn :=
  if s < 0 then l.drop ((l.length : Int) + s).toNat else l.drop s.toNat

/-- The `couple` variable of `reduce_length` (utils.py lines 158-160):
`couple = conv*2 - 1`, reassigned to `len(self.conversation) - 1` when
`len(self.conversation) < couple`.  Note the guard compares `len`, not
`len - 1`, to `couple`. -/
def coupleVal (conv : Int) (l : List Turn) : Int :=
  if (l.length : Int) < conv * 2 - 1 then (l.length : Int) - 1 else conv * 2 - 1

/-- The list transformation of `reduce_length` (utils.py line 161):
`self.conversation[:1] + self.conversation[-couple:]`. -/
def redList (conv : Int) (l : List Turn) : List Turn :=
  l.take 1 ++ pySliceFrom (-(coupleVal conv l)) l

/-- `reduce_length` (utils.py lines 151-161). -/
def reduce_length (pg : PG) (conv : Int) : PG :=
  { pg with conversation := redList conv pg.conversation }

/-- `generate_one_shot_prompt` (utils.py lines 163-194).  The alpaca
branch is selected by `self.model_name == 'alpaca'` (line 184), not by
the bound `template_name`.  Returns the rendered string (or raised error)
together with the object state. -/
def generate_one_shot_prompt (pg : PG)
    (user_prompt preprompt system_prompt input : List Char) :
    Except PyErr (List Char) × PG :=
  let pg1 := if system_prompt = [] then pg
             else { pg with system_text := pyStrip system_prompt }
  match pg1.system_prompt_helper with
  | none => (.error (PyErr.attributeError aSysHelper), pg1)
  | some sph =>
    match pyFormat sph [(kSystem, pyStrip pg1.system_text)] with
    | .error e => (.error (PyErr.formatError e), pg1)
    | .ok s1 =>
      if pg1.model_name = kAlpaca ∧ input ≠ [] then
        match pg1.input_prompt_helper with
        | none => (.error (PyErr.attributeError aInputHelper), pg1)
        | some iph =>
          match pyFormat iph
              [(kPrompt, pyStrip preprompt ++ pyStrip user_prompt),
               (kInput, pyStrip input)] with
          | .error e => (.error (PyErr.formatError e), pg1)
          | .ok s2 => (.ok (pyStrip (s1 ++ s2)), pg1)
      else
        match pg1.user_prompt_helper with
        | none => (.error (PyErr.attributeError aUserHelper), pg1)
        | some uph =>
          match pyFormat uph [(kPrompt, pyStrip preprompt ++ pyStrip user_prompt)] with
          | .error e => (.error (PyErr.formatError e), pg1)
          | .ok s2 => (.ok (pyStrip (s1 ++ s2)), pg1)

/-- Python `"".join(self.conversation)`: defined only when every element
is a string (otherwise `TypeError`). -/
def joinTurns : List Turn → Option (List Char)
  | [] => some []
  | Turn.str s :: rest => (joinTurns rest).map (fun t => s ++ t)
  | Turn.record _ _ :: _ => none

/-- `generate_prompt` (utils.py lines 196-206). -/
def generate_prompt (pg : PG) : Except PyErr GenOut :=
  match pg.template_name with
  | none => .error (PyErr.attributeError aTemplateName)
  | some tn =>
    if tn = kOpenai then .ok (GenOut.convList pg.conversation)
    else
      match joinTurns pg.conversation with
      | none => .error PyErr.typeError
      | some s => .ok (GenOut.text (pyStrip s))

-- Concrete template stores and builder states used by the scenario
-- theorems below.

def mName : List Char := "m".data
def kVicuna : List Char := "vicuna".data
def vSys : List Char := "{system}\n".data
def vUser : List Char := "USER: {prompt}\nASSISTANT:".data
def vResp : List Char := " {response}</s>".data

/-- The "vicuna" template of the spec's Scenario A (also the example in
the `custom_template` docstring, utils.py lines 69-74). -/
def vicunaTmpl : Tmpl := { response := vResp, user := vUser, system := vSys, input := [] }

def storeV : List (List Char × Tmpl) := [(kVicuna, vicunaTmpl)]
def pgV0 : PG := init mName storeV
def pgV1 : PG := (load_template pgV0 kVicuna).2
def sysHelpful : List Char := "You are helpful.".data
def pgV2 : PG := (set_system_prompt pgV1 sysHelpful).2
def hiS : List Char := "Hi".data
def helloS : List Char := "Hello!".data
def pgV3 : PG := (add_to_conversation pgV2 kUser hiS [] []).2
def pgV4 : PG := (add_to_conversation pgV3 kModel helloS [] []).2
def expectedC1 : List Char := "You are helpful.\nUSER: Hi\nASSISTANT: Hello!</s>".data

/-- Claim C1: selecting the "vicuna" template, then
`set_system_prompt("You are helpful.")`, `add_to_conversation` of a user
turn "Hi" and a model turn "Hello!", makes `generate_prompt` return
exactly `"You are helpful.\nUSER: Hi\nASSISTANT: Hello!</s>"`, each step
succeeding without an exception. -/
theorem C1_vicuna_scenario :
    (load_template pgV0 kVicuna).1 = none ∧
    (set_system_prompt pgV1 sysHelpful).1 = none ∧
    (add_to_conversation pgV2 kUser hiS [] []).1 = none ∧
    (add_to_conversation pgV3 kModel helloS [] []).1 = none ∧
    generate_prompt pgV4 = .ok (GenOut.text expectedC1) := by
  decide

-- The llama-2-chat template family (Scenario B).  The user sub-template
-- contains the substring "[INST] {prompt} [/INST]" the spec names,
-- preceded by a space so that the literal " [INST]" occurs in it.

def lSys : List Char := "[INST] <<SYS>>\n{system}\n<</SYS>>\n\n".data
def lUser : List Char := " [INST] {prompt} [/INST]".data
def lResp : List Char := " {response} </s><s>".data
def llamaTmpl : Tmpl := { response := lResp, user := lUser, system := lSys, input := [] }
def storeL : List (List Char × Tmpl) := [(kLlama2, llamaTmpl)]
def pgL0 : PG := init mName storeL
def pgL1 : PG := (load_template pgL0 kLlama2).2
def pgL2 : PG := (set_system_prompt pgL1 sysHelpful).2
def okS : List Char := "ok".data
def pgL3 : PG := (add_to_conversation pgL2 kUser hiS [] []).2
def pgL4 : PG := (add_to_conversation pgL3 kModel okS [] []).2
def againS : List Char := "Again".data
def f1lit : List Char := " [INST] Hi [/INST]".data
def f2lit : List Char := " [INST] Again [/INST]".data

theorem pyStrip_nil : pyStrip [] = [] := rfl

/-- Claim C2: with the "llama-2-chat" template bound, a user turn added
while the conversation has exactly one element (the system message) is
appended as the user sub-template's output with the literal `" [INST]"`
substring removed, while a user turn added later (two or more elements)
is appended as the user sub-template's output unmodified. -/
theorem C2_llama_first_turn_marker (pg : PG) (text uph f1 f2 : List Char)
    (htm : pg.template_name = some kLlama2)
    (hll : pg.is_llama_2 = some true)
    (huph : pg.user_prompt_helper = some uph) :
    (pg.conversation.length = 1 →
      pyFormat uph [(kPrompt, pyStrip text)] = .ok f1 →
      add_to_conversation pg kUser text [] [] =
        (none, appendTurn pg (Turn.str (pyReplace f1 sInst [])))) ∧
    (2 ≤ pg.conversation.length →
      pyFormat uph [(kPrompt, pyStrip text), (kInput, [])] = .ok f2 →
      add_to_conversation pg kUser text [] [] =
        (none, appendTurn pg (Turn.str f2))) := by
  have hne : ¬(kUser ≠ kUser ∧ ([] : List Char) ≠ []) := by simp
  have hs : ¬(pyLower kUser = kSystem) := by decide
  have hu : pyLower kUser = kUser := by decide
  have hopen : ¬(kLlama2 = kOpenai) := by decide
  constructor
  · intro hlen hf
    simp only [add_to_conversation, if_neg hne, if_neg hs, if_pos hu, addUser,
      pyStrip_nil, List.nil_append, hlen, if_pos rfl, hll, addUserLlama, huph, hf,
      if_true]
  · intro hlen hf
    have hlen1 : ¬(pg.conversation.length = 1) := by omega
    simp only [add_to_conversation, if_neg hne, if_neg hs, if_pos hu, addUser,
      pyStrip_nil, List.nil_append, if_neg hlen1, addUserRest, htm, if_neg hopen]
    have hal : ¬(([] : List Char) ≠ [] ∧ kLlama2 = kAlpaca) := by simp
    simp only [if_neg hal, huph, hf]

/-- Witness for C2: the concrete llama-2-chat conversation `pgL2` (system
message only) gets its first user turn with `" [INST]"` stripped, and the
later state `pgL4` (three turns) gets a second user turn unmodified. -/
theorem C2_llama_first_turn_marker_witness :
    pgL2.conversation.length = 1 ∧
    add_to_conversation pgL2 kUser hiS [] [] =
      (none, appendTurn pgL2 (Turn.str (pyReplace f1lit sInst []))) ∧
    2 ≤ pgL4.conversation.length ∧
    add_to_conversation pgL4 kUser againS [] [] =
      (none, appendTurn pgL4 (Turn.str f2lit)) :=
  ⟨by decide,
   (C2_llama_first_turn_marker pgL2 hiS lUser f1lit f1lit (by decide) (by decide)
     (by decide)).1 (by decide) (by decide),
   by decide,
   (C2_llama_first_turn_marker pgL4 againS lUser f2lit f2lit (by decide) (by decide)
     (by decide)).2 (by decide) (by decide)⟩

def c10Text : List Char := "say [INST] now".data
def f10 : List Char := " [INST] say [INST] now [/INST]".data
def c10Out : List Char := " say now [/INST]".data

/-- Claim C10: on the first user turn under "llama-2-chat" the
`" [INST]"` removal deletes every occurrence in the rendered string, so a
user text that itself contains `" [INST]"` is altered too: the formatted
turn `" [INST] say [INST] now [/INST]"` is appended as
`" say now [/INST]"`, with the user-supplied marker gone as well. -/
theorem C10_marker_removed_everywhere :
    pyFormat lUser [(kPrompt, pyStrip c10Text)] = .ok f10 ∧
    add_to_conversation pgL2 kUser c10Text [] [] =
      (none, appendTurn pgL2 (Turn.str c10Out)) ∧
    pyReplace f10 sInst [] = c10Out := by
  decide

-- Facts about `reduce_length`, used for claim C3.

theorem redList_nil (k : Int) : redList k ([] : List Turn) = [] := by
  simp [redList, pySliceFrom, coupleVal]

/-- When `couple` is `0` or the full length, the Python slice `l[-couple:]`
is the whole list, so `reduce_length` prepends a copy of element 0. -/
theorem redList_take_append (k : Int) (l : List Turn)
    (h : coupleVal k l = 0 ∨ coupleVal k l = (l.length : Int)) :
    redList k l = l.take 1 ++ l := by
  unfold redList pySliceFrom
  rcases h with h | h
  · rw [h]
    norm_num
  · rw [h]
    split_ifs with h1
    · have h2 : ((l.length : Int) + -(l.length : Int)).toNat = 0 := by omega
      rw [h2, List.drop_zero]
    · have h2 : l.length = 0 := by omega
      rw [List.length_eq_zero.mp h2]
      simp

theorem redList_identity (k : Int) (l : List Turn)
    (h2 : 2 ≤ l.length) (hc : coupleVal k l = (l.length : Int) - 1) :
    redList k l = l := by
  unfold redList pySliceFrom
  rw [hc, if_pos (by omega : -((l.length : Int) - 1) < 0)]
  have h3 : ((l.length : Int) + -((l.length : Int) - 1)).toNat = 1 := by omega
  rw [h3]
  exact List.take_append_drop 1 l

/-- Applying the source's `reduce_length` list transformation twice gives
the same list as applying it once, whenever the list is already within
the window (`len - 1 ≤ conv*2 - 1`). -/
theorem redList_idem (k : Int) (l : List Turn)
    (h : (l.length : Int) - 1 ≤ k * 2 - 1) :
    redList k (redList k l) = redList k l := by
  rcases l with _ | ⟨a, l'⟩
  · rw [redList_nil, redList_nil]
  · by_cases hw : k * 2 - 1 = (((a :: l').length : Nat) : Int)
    · have hc : coupleVal k (a :: l') = (((a :: l').length : Nat) : Int) := by
        unfold coupleVal
        rw [if_neg (by omega)]
        omega
      have h1 : redList k (a :: l') = a :: a :: l' := by
        rw [redList_take_append k _ (Or.inr hc)]
        simp
      have h2 : redList k (a :: a :: l') = a :: a :: l' := by
        apply redList_identity
        · simp
        · unfold coupleVal
          rw [if_neg (by simp at hw ⊢; omega)]
          simp at hw ⊢
          omega
      rw [h1, h2]
    · by_cases hn1 : l' = []
      · subst hn1
        have hlt : ((([a] : List Turn).length : Nat) : Int) < k * 2 - 1 := by
          simp at hw h ⊢
          omega
        have hc : coupleVal k [a] = 0 := by
          unfold coupleVal
          rw [if_pos hlt]
          simp
        have h1 : redList k [a] = [a, a] := by
          rw [redList_take_append k _ (Or.inl hc)]
          simp
        have h2 : redList k ([a, a] : List Turn) = [a, a] := by
          apply redList_identity
          · simp
          · unfold coupleVal
            rw [if_pos (by simp at hlt ⊢; omega)]
        rw [h1, h2]
      · have hc : coupleVal k (a :: l') = (((a :: l').length : Nat) : Int) - 1 := by
          unfold coupleVal
          by_cases hlt : (((a :: l').length : Nat) : Int) < k * 2 - 1

          · rw [if_pos hlt]
          · rw [if_neg hlt]
            omega
        have h1 : redList k (a :: l') = a :: l' := by
          apply redList_identity
          · have := List.length_pos.mpr hn1
            simp
            omega
          · exact hc
        rw [h1, h1]

/-- Claim C3 (amended): `reduce_length(k)` is idempotent on every builder
state already within the window (`len(turns) - 1 ≤ k*2 - 1`); the clamp
in the source fires when `len(turns) < window`, not `len(turns) - 1 <
window` as the claim words it. -/
theorem C3_reduce_idem (pg : PG) (k : Int)
    (h : (pg.conversation.length : Int) - 1 ≤ k * 2 - 1) :
    reduce_length (reduce_length pg k) k = reduce_length pg k := by
  simp [reduce_length, redList_idem k pg.conversation h]

def aS : List Char := "A".data
def bS : List Char := "B".data
def cS : List Char := "C".data

/-- A builder whose conversation has three rendered turns. -/
def pgR : PG :=
  { init mName [] with conversation := [Turn.str aS, Turn.str bS, Turn.str cS] }

/-- Counterexample to claim C3 as stated: with three turns and `k = 2`,
`len(turns) - 1 = 2` is below the window `3`, so the claim predicts the
clamp fires and the result is `turns[0:1] + last 2 = turns` — but the
source clamps only when `len(turns) < window`, so here `couple` stays `3`
and element 0 is duplicated: the result is `[A, A, B, C]`, not
`[A, B, C]`. -/
theorem C3_counterexample :
    ((pgR.conversation.length : Int) - 1 < 2 * 2 - 1) ∧
    (reduce_length pgR 2).conversation
      = [Turn.str aS, Turn.str aS, Turn.str bS, Turn.str cS] ∧
    (reduce_length pgR 2).conversation
      ≠ pgR.conversation.take 1 ++ pgR.conversation.drop 1 := by
  decide

/-- Witness for the amended C3 at a concrete state (where one application
is not the identity, yet the second changes nothing). -/
theorem C3_reduce_idem_witness :
    ((pgR.conversation.length : Int) - 1 ≤ 2 * 2 - 1) ∧
    reduce_length (reduce_length pgR 2) 2 = reduce_length pgR 2 :=
  ⟨by decide, C3_reduce_idem pgR 2 (by decide)⟩

def roleBanana : List Char := "banana".data
def roleUserCap : List Char := "User".data
def xS : List Char := "x".data

/-- Claim C4 evaluated on the code: a role outside {"system", "user",
"model"} (case-insensitively) with empty `input` matches none of the
branches of `add_to_conversation` and the call returns silently with the
state unchanged — no `ValueError` is raised, although the method's own
docstring promises one (utils.py lines 110-111). -/
theorem C4_invalid_role_silently_ignored (pg : PG) (role text preprompt : List Char)
    (h1 : pyLower role ≠ kSystem) (h2 : pyLower role ≠ kUser)
    (h3 : pyLower role ≠ kModel) :
    add_to_conversation pg role text preprompt [] = (none, pg) := by
  have hne : ¬(role ≠ kUser ∧ ([] : List Char) ≠ []) := by simp
  simp only [add_to_conversation, if_neg hne, if_neg h1, if_neg h2, if_neg h3]

/-- Witness for C4: role "banana" on a live vicuna conversation is
silently ignored. -/
theorem C4_invalid_role_silently_ignored_witness :
    pyLower roleBanana ≠ kSystem ∧ pyLower roleBanana ≠ kUser ∧
    pyLower roleBanana ≠ kModel ∧
    add_to_conversation pgV2 roleBanana hiS [] [] = (none, pgV2) :=
  ⟨by decide, by decide, by decide,
   C4_invalid_role_silently_ignored pgV2 roleBanana hiS []
     (by decide) (by decide) (by decide)⟩

/-- Claim C5 evaluated on the code: the guard at utils.py line 113
compares `role != 'user'` case-SENSITIVELY, so role `"User"` with a
non-empty `input` raises `ValueError("Input parameter can only be used
with user role")` — even though with empty `input` the very same role
`"User"` is dispatched (via `role.lower()`) to the user branch. -/
theorem C5_capitalized_user_with_input_raises (pg : PG) (text preprompt inp : List Char)
    (h : inp ≠ []) :
    add_to_conversation pg roleUserCap text preprompt inp
      = (some (PyErr.valueError msgInputRole), pg) ∧
    add_to_conversation pg roleUserCap text preprompt []
      = addUser pg (pyStrip preprompt ++ pyStrip text) [] := by
  constructor
  · have hcap : roleUserCap ≠ kUser := by decide
    simp only [add_to_conversation, if_pos (And.intro hcap h)]
  · have hne : ¬(roleUserCap ≠ kUser ∧ ([] : List Char) ≠ []) := by simp
    have hs : ¬(pyLower roleUserCap = kSystem) := by decide
    have hu : pyLower roleUserCap = kUser := by decide
    simp only [add_to_conversation, if_neg hne, if_neg hs, if_pos hu]

/-- Witness for C5: `add_to_conversation("User", "Hi", input="x")` on a
live vicuna conversation raises, while the same call without `input`
appends a user turn. -/
theorem C5_capitalized_user_with_input_raises_witness :
    xS ≠ ([] : List Char) ∧
    (add_to_conversation pgV2 roleUserCap hiS [] xS
      = (some (PyErr.valueError msgInputRole), pgV2) ∧
     add_to_conversation pgV2 roleUserCap hiS [] []
      = addUser pgV2 (pyStrip [] ++ pyStrip hiS) []) :=
  ⟨by decide, C5_capitalized_user_with_input_raises pgV2 hiS [] xS (by decide)⟩

-- The alpaca template family: its input sub-template contains the
-- `\x7binput\x7d` placeholder, as in the standard alpaca format.

def atSys : List Char := "{system}\n\n".data
def atUser : List Char := "### Instruction:\n{prompt}\n\n### Response:\n".data
def atInput : List Char :=
  "### Instruction:\n{prompt}\n\n### Input:\n{input}\n\n### Response:\n".data
def atResp : List Char := "{response}\n".data
def alpacaTmpl : Tmpl := { response := atResp, user := atUser, system := atSys, input := atInput }
def storeA : List (List Char × Tmpl) := [(kAlpaca, alpacaTmpl)]
def pgA0 : PG := init kAlpaca storeA
def pgA1 : PG := (load_template pgA0 kAlpaca).2
def pgA2 : PG := (set_system_prompt pgA1 sysHelpful).2
def writeS : List Char := "write".data
def dataS : List Char := "data".data

/-- Claim C7 evaluated on the code: with the "alpaca" template bound and
a non-empty `input`, `add_to_conversation` formats the input sub-template
with `prompt=` only (utils.py line 130 passes no `input=` keyword), so an
input sub-template containing the `input` placeholder raises Python's
`KeyError: 'input'` instead of rendering with the input value. -/
theorem C7_input_not_threaded :
    pgA2.template_name = some kAlpaca ∧
    dataS ≠ ([] : List Char) ∧
    add_to_conversation pgA2 kUser writeS [] dataS
      = (some (PyErr.formatError (FmtErr.missingKey kInput)), pgA2) := by
  decide

-- A small alpaca-named template store for exercising
-- `generate_one_shot_prompt`'s branch selection.

def qS : List Char := "q".data
def sysS : List Char := "sys".data
def c6Sys : List Char := "S:{system} ".data
def c6User : List Char := "U:{prompt}".data
def c6Input : List Char := "I:{prompt}|{input}".data
def c6Resp : List Char := "R".data
def c6Tmpl : Tmpl := { response := c6Resp, user := c6User, system := c6Sys, input := c6Input }
def storeC6 : List (List Char × Tmpl) := [(kAlpaca, c6Tmpl)]

/-- Builder with the "alpaca" TEMPLATE bound but a model name that is not
"alpaca". -/
def pgC61 : PG := (load_template (init mName storeC6) kAlpaca).2

/-- Builder with model name "alpaca" and the "alpaca" template bound. -/
def pgC62 : PG := (load_template (init kAlpaca storeC6) kAlpaca).2

def c6S1 : List Char := "S:sys ".data
def c6S2 : List Char := "I:q|x".data
def c6S3 : List Char := "U:q".data
def c6UserRes : List Char := "S:sys U:q".data
def c6InputRes : List Char := "S:sys I:q|x".data

/-- Counterexample to claim C6 as stated: with the active template
identifier "alpaca" and a non-empty `input`, the claim predicts the
input-sub-template branch, producing `"S:sys I:q|x"` — but the source
selects the branch on `self.model_name` (utils.py line 184), which here
is `"m"`, so the user-sub-template branch runs and the result is
`"S:sys U:q"`. -/
theorem C6_counterexample :
    pgC61.template_name = some kAlpaca ∧
    xS ≠ ([] : List Char) ∧
    pyFormat c6Sys [(kSystem, pyStrip (pyStrip sysS))] = .ok c6S1 ∧
    pyFormat c6Input [(kPrompt, pyStrip qS), (kInput, pyStrip xS)] = .ok c6S2 ∧
    pyStrip (c6S1 ++ c6S2) = c6InputRes ∧
    (generate_one_shot_prompt pgC61 qS [] sysS xS).1 = .ok c6UserRes ∧
    c6UserRes ≠ c6InputRes := by
  decide

/-- Claim C6 (amended): `generate_one_shot_prompt` takes the
input-sub-template branch exactly when the constructor's `model_name` is
"alpaca" and `input` is non-empty; in that case the result is the
stripped concatenation of the formatted system sub-template and the
input sub-template formatted with `prompt=trim(preprompt)+trim(user)` and
`input=trim(input)`; otherwise the user sub-template branch runs. -/
theorem C6_one_shot_branch_on_model_name (pg : PG)
    (up pre sp inp sph uph iph s1 s2 s3 : List Char)
    (h1 : pg.system_prompt_helper = some sph)
    (h2 : pg.user_prompt_helper = some uph)
    (h3 : pg.input_prompt_helper = some iph)
    (hs1 : pyFormat sph
      [(kSystem, pyStrip (if sp = [] then pg.system_text else pyStrip sp))] = .ok s1)
    (hs2 : pyFormat iph
      [(kPrompt, pyStrip pre ++ pyStrip up), (kInput, pyStrip inp)] = .ok s2)
    (hs3 : pyFormat uph [(kPrompt, pyStrip pre ++ pyStrip up)] = .ok s3) :
    (generate_one_shot_prompt pg up pre sp inp).1 =
      .ok (pyStrip (s1 ++ (if pg.model_name = kAlpaca ∧ inp ≠ [] then s2 else s3))) := by
  by_cases hsp : sp = []
  · rw [if_pos hsp] at hs1
    simp only [generate_one_shot_prompt, if_pos hsp, h1, hs1, h2, h3]
    by_cases hb : pg.model_name = kAlpaca ∧ inp ≠ []
    · simp only [if_pos hb, hs2]
    · simp only [if_neg hb, hs3]
  · rw [if_neg hsp] at hs1
    simp only [generate_one_shot_prompt, if_neg hsp]
    simp only [h1, hs1, h2, h3]
    by_cases hb : pg.model_name = kAlpaca ∧ inp ≠ []
    · simp only [if_pos hb, hs2]
    · simp only [if_neg hb, hs3]

/-- Witness for the amended C6: with model name "alpaca" and non-empty
input, the input branch renders. -/
theorem C6_one_shot_branch_on_model_name_witness :
    (generate_one_shot_prompt pgC62 qS [] sysS xS).1 =
      .ok (pyStrip (c6S1 ++ (if pgC62.model_name = kAlpaca ∧ xS ≠ [] then c6S2 else c6S3))) :=
  C6_one_shot_branch_on_model_name pgC62 qS [] sysS xS c6Sys c6User c6Input c6S1 c6S2 c6S3
    (by decide) (by decide) (by decide) (by decide) (by decide) (by decide)

def nopeS : List Char := "nope".data

/-- Claim C8: `load_template` with an identifier absent from the store
raises `ValueError("Template not found.")` and returns the builder state
exactly as it was — previously bound sub-templates, `template_name`,
`is_llama_2` and the conversation included (the raise precedes every
assignment). -/
theorem C8_template_not_found_state_unchanged (pg : PG) (t : List Char)
    (h : lookupTmpl pg.model_templates (pyLower t) = none) :
    load_template pg t = (some (PyErr.valueError msgTemplateNotFound), pg) := by
  simp only [load_template, h]

/-- Witness for C8: an unknown name on a live vicuna conversation fails
and leaves the whole state (`pgV2`, with its bound template and one
conversation element) untouched. -/
theorem C8_template_not_found_state_unchanged_witness :
    lookupTmpl pgV2.model_templates (pyLower nopeS) = none ∧
    load_template pgV2 nopeS = (some (PyErr.valueError msgTemplateNotFound), pgV2) :=
  ⟨by decide, C8_template_not_found_state_unchanged pgV2 nopeS (by decide)⟩

/-- Builder configured with `custom_template` only (no prior successful
`load_template`). -/
def pgC9 : PG := custom_template (init mName []) vSys vResp vUser []

/-- Counterexample to claim C9 as stated: after `custom_template` alone,
`set_system_prompt` does NOT succeed — it raises `AttributeError` on
`self.template_name` (utils.py line 91), and `generate_prompt` likewise
(line 203), because `custom_template` never assigns `template_name`. -/
theorem C9_counterexample :
    (set_system_prompt pgC9 sysHelpful).1 = some (PyErr.attributeError aTemplateName) ∧
    (set_system_prompt pgC9 sysHelpful).1 ≠ none ∧
    generate_prompt pgC9 = .error (PyErr.attributeError aTemplateName) := by
  decide

/-- Claim C9 (amended): after `setCustomTemplate` alone the four custom
sub-templates are bound, but every conversation operation still fails:
`set_system_prompt`, a user `add_to_conversation` and `generate_prompt`
each raise `AttributeError` for the unset `template_name`, because
`custom_template` does not assign `template_name` (or `is_llama_2`). -/
theorem C9_custom_alone_attribute_error (pg : PG) (s r u i txt : List Char)
    (h1 : pg.template_name = none) (h2 : pg.conversation = []) :
    (set_system_prompt (custom_template pg s r u i) txt).1
      = some (PyErr.attributeError aTemplateName) ∧
    (add_to_conversation (custom_template pg s r u i) kUser txt [] []).1
      = some (PyErr.attributeError aTemplateName) ∧
    generate_prompt (custom_template pg s r u i)
      = .error (PyErr.attributeError aTemplateName) := by
  refine ⟨?_, ?_, ?_⟩
  · simp [set_system_prompt, custom_template, h1]
  · have hne : ¬(kUser ≠ kUser ∧ ([] : List Char) ≠ []) := by simp
    have hs : ¬(pyLower kUser = kSystem) := by decide
    have hu : pyLower kUser = kUser := by decide
    simp only [add_to_conversation, if_neg hne, if_neg hs, if_pos hu, addUser]
    simp [custom_template, addUserRest, h1, h2]
  · simp [generate_prompt, custom_template, h1]

/-- Witness for the amended C9 at the concrete custom-only builder. -/
theorem C9_custom_alone_attribute_error_witness :
    (set_system_prompt pgC9 hiS).1 = some (PyErr.attributeError aTemplateName) ∧
    (add_to_conversation pgC9 kUser hiS [] []).1
      = some (PyErr.attributeError aTemplateName) ∧
    generate_prompt pgC9 = .error (PyErr.attributeError aTemplateName) :=
  C9_custom_alone_attribute_error (init mName []) vSys vResp vUser [] hiS rfl rfl

end PromptGen
